import Mathlib

/-!
Verification of the code-sandbox service transport layer (service.py) of
openeuler-mirror/openeuler-intelligence-sandbox.

The FastAPI endpoints in service.py are embedded as total Lean functions over
an explicit service state (the optional global executor-manager instance).
The ExecutorManager and the entities module are not part of the sources at
hand (only their callers in service.py are), so they are modelled from the
specification, as marked on each such definition.
-/

/-- Task lifecycle states (entities.TaskStatus). Modelled from the spec:
PENDING, RUNNING, SUCCEEDED, FAILED, TIMED_OUT, CANCELLED. -/
inductive TaskStatus where
  | pending
  | running
  | succeeded
  | failed
  | timedOut
  | cancelled
deriving DecidableEq, Repr

/-- Terminal states: SUCCEEDED, FAILED, TIMED_OUT, CANCELLED. -/
def TaskStatus.isTerminal : TaskStatus → Bool
  | .succeeded => true
  | .failed => true
  | .timedOut => true
  | .cancelled => true
  | _ => false

/-- Security tiers (entities.SecurityLevel). Modelled from the spec:
LOW / MEDIUM / HIGH. -/
inductive SecurityLevel where
  | low
  | medium
  | high
deriving DecidableEq, Repr

/-- entities.CodeExecutionRequest, the submit payload. Modelled from the spec:
code, language/code-type, security tier, timeout, optional input data. -/
structure CodeExecutionRequest where
  code : String
  code_type : String
  security_level : SecurityLevel
  timeout_seconds : Nat
  input_data : Option String
deriving DecidableEq, Repr

/-- entities.ExecutionResult, as constructed in service.py (the legacy
endpoint builds one field by field). -/
structure ExecutionResult where
  task_id : Nat
  status : TaskStatus
  output : Option String
  error : Option String
  return_code : Option Int
  execution_time : Option Nat
  memory_usage : Option Nat
  cpu_usage : Option Nat
  start_time : Option Nat
  end_time : Option Nat
deriving DecidableEq, Repr

/-- entities.TaskSubmissionResponse, the submit success payload. -/
structure TaskSubmissionResponse where
  task_id : Nat
  estimated_wait_time : Nat
  queue_position : Nat
deriving DecidableEq, Repr

/-- entities.ApiResponse: the uniform response envelope. -/
structure ApiResponse (α : Type) where
  success : Bool
  message : String
  data : α
deriving DecidableEq, Repr

/-- A raised fastapi.HTTPException: status code plus detail string. -/
structure HttpErr where
  status : Nat
  detail : String
deriving DecidableEq, Repr

/-- Errors the Executor Manager can raise. Modelled from the spec error
taxonomy: LifecycleError is raised when an operation is attempted while the
manager is not running (e.g. submit after stop). -/
inductive ManagerError where
  | lifecycleError
deriving DecidableEq, Repr

/-- str(e) for a manager error, used when the endpoint wraps it in a 500. -/
def ManagerError.message : ManagerError → String
  | .lifecycleError => "executor manager is not running"

/-- A queue entry. Modelled from the spec: (task identifier, priority,
submission sequence number). -/
structure QueueEntry where
  task_id : Nat
  priority : Int
  seq : Nat
deriving DecidableEq, Repr

/-- Per-tier queue sizes as reported by ExecutorManager.get_queue_info
(service.py reads queue_info["queues"][level]["queue_size"]). -/
structure QueueInfo where
  sizes : SecurityLevel → Nat

/-- Aggregate status snapshot. Modelled from the spec: per-tier queue size,
pool active/capacity, and the overall running flag. -/
structure SystemStatus where
  running : Bool
  queue_sizes : SecurityLevel → Nat
  active : SecurityLevel → Nat
  capacity : SecurityLevel → Nat

/-- Per-tier executor-pool status as reported by get_executor_status. -/
structure ExecutorStatus where
  active : SecurityLevel → Nat
  capacity : SecurityLevel → Nat

/-- The ExecutorManager state. Modelled from the spec: a running flag, the
task registry (task id to lifecycle state), the stored terminal results,
one pending queue per security tier, and the executor pools; task ids are
allocated from a monotonically increasing counter. -/
structure ExecutorManager where
  is_running : Bool
  next_task_seq : Nat
  tasks : List (Nat × TaskStatus)
  results : List (Nat × ExecutionResult)
  queues : SecurityLevel → List QueueEntry
  pool_active : SecurityLevel → Nat
  pool_capacity : SecurityLevel → Nat

/-- Python str.strip(): drop leading and trailing whitespace characters. -/
def pyStrip (s : String) : String :=
  ⟨((s.data.dropWhile Char.isWhitespace).reverse.dropWhile Char.isWhitespace).reverse⟩

/-- Replace the state recorded for a task id in the registry list. -/
def setState : List (Nat × TaskStatus) → Nat → TaskStatus → List (Nat × TaskStatus)
  | [], _, _ => []
  | (k, v) :: tl, tid, s =>
    (if k = tid then (k, s) else (k, v)) :: setState tl tid s

/-- Modelled from the spec: Registry.get_state via the manager facade —
the task state if the task id is in the registry, none otherwise. -/
def ExecutorManager.get_task_status (m : ExecutorManager) (tid : Nat) :
    Option TaskStatus :=
  m.tasks.lookup tid

/-- Modelled from the spec: the stored terminal ExecutionResult if one has
been written for the task, none otherwise. The Python facade returns an
Optional (the call sites in service.py test `result is None`), so a task
that exists but is not yet terminal and a task that never existed both
yield none here. -/
def ExecutorManager.get_task_result (m : ExecutorManager) (tid : Nat) :
    Option ExecutionResult :=
  m.results.lookup tid

/-- Modelled from the spec: submit validates the lifecycle (LifecycleError
when the manager is not running), creates the task in state PENDING under a
freshly allocated identifier, and enqueues it on the matching tier queue. -/
def ExecutorManager.submit_task (m : ExecutorManager)
    (request : CodeExecutionRequest) (priority : Int) :
    Except ManagerError (Nat × ExecutorManager) :=
  if m.is_running = false then
    .error .lifecycleError
  else
    let tid := m.next_task_seq
    .ok (tid,
      { m with
        next_task_seq := tid + 1
        tasks := (tid, TaskStatus.pending) :: m.tasks
        queues := fun lvl =>
          if lvl = request.security_level then
            m.queues lvl ++ [⟨tid, priority, tid⟩]
          else m.queues lvl })

/-- Modelled from the spec: cancellation succeeds only while the task is
PENDING (mark_cancelled), in which case the state becomes CANCELLED and the
queue entry is removed; it returns false when the task is absent, running,
or already terminal. Under the invariant that every PENDING task has exactly
one queue entry, queue removal and the state transition agree. -/
def ExecutorManager.cancel_task (m : ExecutorManager) (tid : Nat) :
    Bool × ExecutorManager :=
  match m.tasks.lookup tid with
  | some TaskStatus.pending =>
      (true,
        { m with
          tasks := setState m.tasks tid TaskStatus.cancelled
          queues := fun lvl => (m.queues lvl).filter (fun e => e.task_id != tid) })
  | _ => (false, m)

/-- Modelled from the spec: per-tier pending counts for load reporting. -/
def ExecutorManager.get_queue_info (m : ExecutorManager) : QueueInfo :=
  ⟨fun lvl => (m.queues lvl).length⟩

/-- Modelled from the spec: status_summary — a point-in-time snapshot of
queue sizes, pool utilisation and the running flag. -/
def ExecutorManager.get_system_status (m : ExecutorManager) : SystemStatus :=
  ⟨m.is_running, fun lvl => (m.queues lvl).length, m.pool_active, m.pool_capacity⟩

/-- Modelled from the spec: per-tier pool active/capacity reporting. -/
def ExecutorManager.get_executor_status (m : ExecutorManager) : ExecutorStatus :=
  ⟨m.pool_active, m.pool_capacity⟩

/-- Modelled from the spec: stop signals shutdown and leaves the manager
STOPPED; idempotent. -/
def ExecutorManager.stop (m : ExecutorManager) : ExecutorManager :=
  { m with is_running := false }

/-- The tier queue size the submit endpoint observes for a tier. -/
def ExecutorManager.queue_size (m : ExecutorManager) (lvl : SecurityLevel) : Nat :=
  m.get_queue_info.sizes lvl

/-- str() of an HTTPException as interpolated into a wrapping detail. -/
def httpErrString (e : HttpErr) : String :=
  toString e.status ++ ": " ++ e.detail

/-- The status code of an error outcome, none on success. -/
def errorStatus {α : Type} : Except HttpErr α → Option Nat
  | .error e => some e.status
  | .ok _ => none

/-- service.py global_exception_handler: any exception that reaches the
application layer unhandled becomes a structured 500 failure payload
(success = false, data = null). -/
def global_exception_handler : Nat × ApiResponse (Option Unit) :=
  (500, ⟨false, "服务器内部错误", none⟩)

/-- service.py root endpoint GET /. -/
def root : ApiResponse (String × String) :=
  ⟨true, "代码沙箱服务运行正常", ("euler-copilot-sandbox", "running")⟩

/-- service.py GET /health: 503 when the global manager is absent or not
running, otherwise 200 with the system status snapshot. -/
def health_check (em? : Option ExecutorManager) :
    Except HttpErr (ApiResponse SystemStatus) :=
  match em? with
  | none => .error ⟨503, "服务不可用"⟩
  | some em =>
    if em.is_running = false then
      .error ⟨503, "服务不可用"⟩
    else
      .ok ⟨true, "服务健康", em.get_system_status⟩

/-- service.py POST /execute (submit_code_execution): 503 when the manager
is uninitialised; 400 when the code strips to empty; otherwise submits the
task, reads the tier queue size from get_queue_info, and returns task_id,
estimated_wait_time = queue_size * 10 and queue_position = queue_size + 1.
A non-HTTP exception from the manager is re-raised as a 500. -/
def submit_code_execution (em? : Option ExecutorManager)
    (request : CodeExecutionRequest) (priority : Int) :
    Except HttpErr (ApiResponse TaskSubmissionResponse × ExecutorManager) :=
  match em? with
  | none => .error ⟨503, "执行器管理器未初始化"⟩
  | some em =>
    if pyStrip request.code = "" then
      .error ⟨400, "代码内容不能为空"⟩
    else
      match em.submit_task request priority with
      | .error e => .error ⟨500, "提交任务失败: " ++ e.message⟩
      | .ok (task_id, em2) =>
        let queue_info := em2.get_queue_info
        let queue_size := queue_info.sizes request.security_level
        let estimated_wait_time := queue_size * 10
        .ok (⟨true, "任务提交成功",
              ⟨task_id, estimated_wait_time, queue_size + 1⟩⟩, em2)

/-- service.py GET /task/{task_id}/status (get_task_status): 503 when the
manager is uninitialised, 404 when the task id is unknown, otherwise 200
carrying the task id and its current state. -/
def get_task_status (em? : Option ExecutorManager) (task_id : Nat) :
    Except HttpErr (ApiResponse (Nat × TaskStatus)) :=
  match em? with
  | none => .error ⟨503, "执行器管理器未初始化"⟩
  | some em =>
    match em.get_task_status task_id with
    | none => .error ⟨404, "任务不存在"⟩
    | some status => .ok ⟨true, "获取任务状态成功", (task_id, status)⟩

/-- service.py GET /task/{task_id}/result (get_task_result): 503 when the
manager is uninitialised, 404 when the manager returns no result, otherwise
200 with the stored ExecutionResult. -/
def get_task_result (em? : Option ExecutorManager) (task_id : Nat) :
    Except HttpErr (ApiResponse ExecutionResult) :=
  match em? with
  | none => .error ⟨503, "执行器管理器未初始化"⟩
  | some em =>
    match em.get_task_result task_id with
    | none => .error ⟨404, "任务结果不存在"⟩
    | some result => .ok ⟨true, "获取任务结果成功", result⟩

/-- service.py GET /status/{task_id} (get_task_status_legacy): 503 when the
manager is uninitialised, 404 when the task id is unknown; otherwise, when
no result is stored, a placeholder ExecutionResult is built whose status is
the current task state and whose other fields are all None. -/
def get_task_status_legacy (em? : Option ExecutorManager) (task_id : Nat) :
    Except HttpErr (ApiResponse ExecutionResult) :=
  match em? with
  | none => .error ⟨503, "执行器管理器未初始化"⟩
  | some em =>
    match em.get_task_status task_id with
    | none => .error ⟨404, "任务不存在"⟩
    | some status =>
      let result :=
        match em.get_task_result task_id with
        | some r => r
        | none =>
          { task_id := task_id, status := status, output := none, error := none
            return_code := none, execution_time := none, memory_usage := none
            cpu_usage := none, start_time := none, end_time := none }
      .ok ⟨true, "获取任务状态成功", result⟩

/-- service.py DELETE /task/{task_id} (cancel_task): 503 when the manager is
uninitialised, 400 when the manager reports the cancel failed, otherwise 200
with a cancelled marker. -/
def cancel_task (em? : Option ExecutorManager) (task_id : Nat) :
    Except HttpErr (ApiResponse (Nat × String) × ExecutorManager) :=
  match em? with
  | none => .error ⟨503, "执行器管理器未初始化"⟩
  | some em =>
    match em.cancel_task task_id with
    | (false, _) => .error ⟨400, "任务无法取消（可能已在执行中或不存在）"⟩
    | (true, em2) => .ok (⟨true, "任务取消成功", (task_id, "cancelled")⟩, em2)

/-- service.py GET /queues/info (get_queue_info): its try block has no
separate re-raise clause for HTTPException, so the 503 raised when the
manager is uninitialised is caught by the blanket except and re-raised as a
500 whose detail interpolates str(e). -/
def get_queue_info (em? : Option ExecutorManager) :
    Except HttpErr (ApiResponse QueueInfo) :=
  let body : Except HttpErr (ApiResponse QueueInfo) :=
    match em? with
    | none => .error ⟨503, "执行器管理器未初始化"⟩
    | some em => .ok ⟨true, "获取队列信息成功", em.get_queue_info⟩
  match body with
  | .error e => .error ⟨500, "获取队列信息失败: " ++ httpErrString e⟩
  | .ok r => .ok r

/-- service.py GET /executors/status (get_executor_status): same blanket
except as /queues/info — the inner 503 surfaces as a 500. -/
def get_executor_status (em? : Option ExecutorManager) :
    Except HttpErr (ApiResponse ExecutorStatus) :=
  let body : Except HttpErr (ApiResponse ExecutorStatus) :=
    match em? with
    | none => .error ⟨503, "执行器管理器未初始化"⟩
    | some em => .ok ⟨true, "获取执行器状态成功", em.get_executor_status⟩
  match body with
  | .error e => .error ⟨500, "获取执行器状态失败: " ++ httpErrString e⟩
  | .ok r => .ok r

/-- service.py GET /system/status (get_system_status): same blanket except
as /queues/info — the inner 503 surfaces as a 500. -/
def get_system_status (em? : Option ExecutorManager) :
    Except HttpErr (ApiResponse SystemStatus) :=
  let body : Except HttpErr (ApiResponse SystemStatus) :=
    match em? with
    | none => .error ⟨503, "执行器管理器未初始化"⟩
    | some em => .ok ⟨true, "获取系统状态成功", em.get_system_status⟩
  match body with
  | .error e => .error ⟨500, "获取系统状态失败: " ++ httpErrString e⟩
  | .ok r => .ok r

/-- One client-visible operation of the service (the routed endpoints). -/
inductive Operation where
  | rootOp
  | healthOp
  | executeOp (request : CodeExecutionRequest) (priority : Int)
  | taskStatusOp (task_id : Nat)
  | taskResultOp (task_id : Nat)
  | legacyStatusOp (task_id : Nat)
  | cancelOp (task_id : Nat)
  | queueInfoOp
  | executorStatusOp
  | systemStatusOp

/-- The wire-level shape of a response: HTTP status code and the success
flag of the JSON envelope. -/
structure WireResponse where
  status_code : Nat
  success : Bool
deriving DecidableEq, Repr

/-- Collapse an endpoint outcome to its wire-level shape: a raised
HTTPException becomes a failure response with its status code. -/
def toWire {α : Type} : Except HttpErr (ApiResponse α) → WireResponse
  | .ok r => ⟨200, r.success⟩
  | .error e => ⟨e.status, false⟩

/-- Dispatch one operation against the service state and report the
wire-level response shape. -/
def handle (em? : Option ExecutorManager) : Operation → WireResponse
  | .rootOp => ⟨200, root.success⟩
  | .healthOp => toWire (health_check em?)
  | .executeOp request priority =>
    match submit_code_execution em? request priority with
    | .ok (r, _) => ⟨200, r.success⟩
    | .error e => ⟨e.status, false⟩
  | .taskStatusOp task_id => toWire (get_task_status em? task_id)
  | .taskResultOp task_id => toWire (get_task_result em? task_id)
  | .legacyStatusOp task_id => toWire (get_task_status_legacy em? task_id)
  | .cancelOp task_id =>
    match cancel_task em? task_id with
    | .ok (r, _) => ⟨200, r.success⟩
    | .error e => ⟨e.status, false⟩
  | .queueInfoOp => toWire (get_queue_info em?)
  | .executorStatusOp => toWire (get_executor_status em?)
  | .systemStatusOp => toWire (get_system_status em?)

/-- Registry ids are bounded by the allocation counter: every id in the
registry was allocated before next_task_seq. -/
def idsBounded (m : ExecutorManager) : Prop :=
  ∀ p ∈ m.tasks, p.1 < m.next_task_seq

/-- Results are only stored for terminal tasks (the registry writes state
and result atomically together on completion). -/
def resultsOnlyTerminal (m : ExecutorManager) : Prop :=
  ∀ tid r, m.results.lookup tid = some r →
    ∃ s, m.tasks.lookup tid = some s ∧ s.isTerminal = true

/-- A fresh idle manager used for concrete witnesses. -/
def emptyManager : ExecutorManager :=
  { is_running := true
    next_task_seq := 0
    tasks := []
    results := []
    queues := fun _ => []
    pool_active := fun _ => 0
    pool_capacity := fun _ => 2 }

/-- A manager holding one pending task (id 0) and no results. -/
def pendingManager : ExecutorManager :=
  { is_running := true
    next_task_seq := 1
    tasks := [(0, TaskStatus.pending)]
    results := []
    queues := fun lvl => if lvl = SecurityLevel.low then [⟨0, 0, 0⟩] else []
    pool_active := fun _ => 0
    pool_capacity := fun _ => 2 }

/-- A well-formed non-blank request used for concrete witnesses. -/
def sampleRequest : CodeExecutionRequest :=
  { code := "print(1)"
    code_type := "python"
    security_level := SecurityLevel.low
    timeout_seconds := 10
    input_data := none }

/-- A request whose code is whitespace only. -/
def blankRequest : CodeExecutionRequest :=
  { code := "   "
    code_type := "python"
    security_level := SecurityLevel.low
    timeout_seconds := 10
    input_data := none }

theorem lookup_setState_self (l : List (Nat × TaskStatus)) (tid : Nat)
    (s v : TaskStatus) (h : l.lookup tid = some v) :
    (setState l tid s).lookup tid = some s := by
  induction l with
  | nil => simp [List.lookup] at h
  | cons hd tl ih =>
    obtain ⟨k, w⟩ := hd
    by_cases hk : k = tid
    · subst hk
      rw [setState, if_pos rfl]
      simp [List.lookup]
    · have hne : (tid == k) = false := by
        simp only [beq_eq_false_iff_ne, ne_eq]
        exact fun hc => hk hc.symm
      rw [setState, if_neg hk]
      simp only [List.lookup, hne] at h ⊢
      exact ih h

theorem lookup_eq_none_of_forall_ne (l : List (Nat × TaskStatus)) (k : Nat)
    (h : ∀ p ∈ l, p.1 ≠ k) : l.lookup k = none := by
  induction l with
  | nil => rfl
  | cons hd tl ih =>
    obtain ⟨a, b⟩ := hd
    have ha : a ≠ k := h (a, b) (List.mem_cons_self _ _)
    have hne : (k == a) = false := by
      simp only [beq_eq_false_iff_ne, ne_eq]
      exact fun hc => ha hc.symm
    simp only [List.lookup, hne]
    exact ih (fun p hp => h p (List.mem_cons_of_mem _ hp))

/-- Claim C1: an accepted submission returns a payload whose task_id is the
one issued by submit_task, whose queue_position is the submitting tier's
pending queue size observed during the submit operation plus 1, and whose
estimated_wait_time is that queue size times the fixed 10-second per-task
cost estimate. -/
theorem submit_payload_formulas (em : ExecutorManager)
    (request : CodeExecutionRequest) (priority : Int)
    (hrun : em.is_running = true) (hcode : pyStrip request.code ≠ "") :
    ∃ tid em2 resp,
      em.submit_task request priority = .ok (tid, em2) ∧
      submit_code_execution (some em) request priority = .ok (resp, em2) ∧
      resp.success = true ∧
      resp.data.task_id = tid ∧
      resp.data.queue_position = em2.queue_size request.security_level + 1 ∧
      resp.data.estimated_wait_time = em2.queue_size request.security_level * 10 := by
  cases hs : em.submit_task request priority with
  | error e =>
    exfalso
    rw [ExecutorManager.submit_task, hrun] at hs
    simp at hs
  | ok pr =>
    obtain ⟨tid, em2⟩ := pr
    refine ⟨tid, em2,
      ⟨true, "任务提交成功",
        ⟨tid, em2.queue_size request.security_level * 10,
          em2.queue_size request.security_level + 1⟩⟩, rfl, ?_, rfl, rfl, rfl, rfl⟩
    simp [submit_code_execution, hcode, hs, ExecutorManager.queue_size]

theorem submit_payload_formulas_witness :
    emptyManager.is_running = true ∧ pyStrip sampleRequest.code ≠ "" ∧
    ∃ tid em2 resp,
      emptyManager.submit_task sampleRequest 0 = .ok (tid, em2) ∧
      submit_code_execution (some emptyManager) sampleRequest 0 = .ok (resp, em2) ∧
      resp.success = true ∧
      resp.data.task_id = tid ∧
      resp.data.queue_position = em2.queue_size sampleRequest.security_level + 1 ∧
      resp.data.estimated_wait_time = em2.queue_size sampleRequest.security_level * 10 :=
  ⟨rfl, by decide, submit_payload_formulas emptyManager sampleRequest 0 rfl (by decide)⟩

/-- Claim C2: a submission whose code strips to the empty string is rejected
with HTTP 400 before any task is created — for every manager state, the
endpoint returns the validation error and submit_task is never consulted. -/
theorem empty_code_rejected_400 (em : ExecutorManager)
    (request : CodeExecutionRequest) (priority : Int)
    (hblank : pyStrip request.code = "") :
    submit_code_execution (some em) request priority =
      .error ⟨400, "代码内容不能为空"⟩ := by
  simp [submit_code_execution, hblank]

theorem empty_code_rejected_400_witness :
    pyStrip blankRequest.code = "" ∧
    submit_code_execution (some emptyManager) blankRequest 0 =
      .error ⟨400, "代码内容不能为空"⟩ :=
  ⟨by decide, empty_code_rejected_400 emptyManager blankRequest 0 (by decide)⟩

/-- Claim C4: the status endpoint returns HTTP 404 exactly when the task id
is unknown to the registry, and otherwise a success payload carrying exactly
the task id and its current state. -/
theorem status_endpoint_spec (em : ExecutorManager) (task_id : Nat) :
    (em.get_task_status task_id = none →
      get_task_status (some em) task_id = .error ⟨404, "任务不存在"⟩) ∧
    (∀ st, em.get_task_status task_id = some st →
      get_task_status (some em) task_id =
        .ok ⟨true, "获取任务状态成功", (task_id, st)⟩) := by
  constructor
  · intro h
    simp [get_task_status, h]
  · intro st h
    simp [get_task_status, h]

theorem status_endpoint_spec_witness :
    pendingManager.get_task_status 0 = some TaskStatus.pending ∧
    get_task_status (some pendingManager) 0 =
      .ok ⟨true, "获取任务状态成功", (0, TaskStatus.pending)⟩ :=
  ⟨rfl, (status_endpoint_spec pendingManager 0).2 TaskStatus.pending rfl⟩

/-- Claim C3 counterexample: task 0 exists in state PENDING (not terminal)
and task 5 never existed, yet the result endpoint answers both queries with
the identical 404 failure — the two non-result outcomes are not
distinguishable from the result query alone. -/
theorem result_endpoint_collapses_outcomes :
    pendingManager.get_task_status 0 = some TaskStatus.pending ∧
    TaskStatus.pending.isTerminal = false ∧
    pendingManager.get_task_status 5 = none ∧
    get_task_result (some pendingManager) 0 = .error ⟨404, "任务结果不存在"⟩ ∧
    get_task_result (some pendingManager) 5 = get_task_result (some pendingManager) 0 :=
  ⟨rfl, rfl, rfl, rfl, rfl⟩

/-- Claim C3 amended: the result endpoint returns the stored ExecutionResult
when one exists (only terminal tasks have one), and otherwise a single 404
failure that is the same whether the task exists-but-is-not-terminal or
never existed. -/
theorem result_endpoint_amended (em : ExecutorManager) (task_id : Nat)
    (hwf : resultsOnlyTerminal em) :
    (∀ r, em.get_task_result task_id = some r →
      get_task_result (some em) task_id = .ok ⟨true, "获取任务结果成功", r⟩) ∧
    ((em.get_task_status task_id = none ∨
      ∃ s, em.get_task_status task_id = some s ∧ s.isTerminal = false) →
      get_task_result (some em) task_id = .error ⟨404, "任务结果不存在"⟩) := by
  constructor
  · intro r h
    simp [get_task_result, h]
  · intro h
    have hnone : em.get_task_result task_id = none := by
      cases hres : em.get_task_result task_id with
      | none => rfl
      | some r =>
        exfalso
        obtain ⟨s, hs, hterm⟩ := hwf task_id r hres
        rcases h with h | ⟨s2, hs2, ht2⟩
        · rw [ExecutorManager.get_task_status] at h
          rw [h] at hs
          exact Option.noConfusion hs
        · rw [ExecutorManager.get_task_status] at hs2
          rw [hs] at hs2
          injection hs2 with he
          rw [← he] at ht2
          rw [hterm] at ht2
          exact Bool.noConfusion ht2
    simp [get_task_result, hnone]

theorem result_endpoint_amended_witness :
    resultsOnlyTerminal pendingManager ∧
    ((∀ r, pendingManager.get_task_result 0 = some r →
      get_task_result (some pendingManager) 0 = .ok ⟨true, "获取任务结果成功", r⟩) ∧
    ((pendingManager.get_task_status 0 = none ∨
      ∃ s, pendingManager.get_task_status 0 = some s ∧ s.isTerminal = false) →
      get_task_result (some pendingManager) 0 = .error ⟨404, "任务结果不存在"⟩)) := by
  have hwf : resultsOnlyTerminal pendingManager := by
    intro tid r h
    exact Option.noConfusion h
  exact ⟨hwf, result_endpoint_amended pendingManager 0 hwf⟩

/-- Claim C5: cancel reports failure exactly when the task is absent,
already running, or already terminal; on success the task state becomes
CANCELLED; the endpoint converts the boolean into a 400 failure or a
success payload accordingly. -/
theorem cancel_spec (em : ExecutorManager) (task_id : Nat) :
    ((em.cancel_task task_id).1 = false ↔
      (em.get_task_status task_id = none ∨
       em.get_task_status task_id = some TaskStatus.running ∨
       ∃ s, em.get_task_status task_id = some s ∧ s.isTerminal = true)) ∧
    ((em.cancel_task task_id).1 = true →
      (em.cancel_task task_id).2.get_task_status task_id = some TaskStatus.cancelled) ∧
    ((em.cancel_task task_id).1 = false →
      cancel_task (some em) task_id =
        .error ⟨400, "任务无法取消（可能已在执行中或不存在）"⟩) ∧
    ((em.cancel_task task_id).1 = true →
      ∃ em2, cancel_task (some em) task_id =
        .ok (⟨true, "任务取消成功", (task_id, "cancelled")⟩, em2)) := by
  cases hlk : em.tasks.lookup task_id with
  | none =>
    have hc : em.cancel_task task_id = (false, em) := by
      simp [ExecutorManager.cancel_task, hlk]
    refine ⟨?_, ?_, ?_, ?_⟩ <;>
      simp [hc, ExecutorManager.get_task_status, hlk, cancel_task]
  | some s =>
    cases s with
    | pending =>
      refine ⟨?_, ?_, ?_, ?_⟩
      · simp [ExecutorManager.cancel_task, hlk, ExecutorManager.get_task_status,
          TaskStatus.isTerminal]
      · intro _
        simp only [ExecutorManager.cancel_task, hlk, ExecutorManager.get_task_status]
        exact lookup_setState_self em.tasks task_id TaskStatus.cancelled
          TaskStatus.pending hlk
      · intro hfalse
        simp [ExecutorManager.cancel_task, hlk] at hfalse
      · intro _
        refine ⟨{ em with
            tasks := setState em.tasks task_id TaskStatus.cancelled
            queues := fun lvl =>
              (em.queues lvl).filter (fun e => e.task_id != task_id) }, ?_⟩
        simp [cancel_task, ExecutorManager.cancel_task, hlk]
    | running =>
      have hc : em.cancel_task task_id = (false, em) := by
        simp [ExecutorManager.cancel_task, hlk]
      refine ⟨?_, ?_, ?_, ?_⟩ <;>
        simp [hc, ExecutorManager.get_task_status, hlk, cancel_task,
          TaskStatus.isTerminal]
    | succeeded =>
      have hc : em.cancel_task task_id = (false, em) := by
        simp [ExecutorManager.cancel_task, hlk]
      refine ⟨?_, ?_, ?_, ?_⟩ <;>
        simp [hc, ExecutorManager.get_task_status, hlk, cancel_task,
          TaskStatus.isTerminal]
    | failed =>
      have hc : em.cancel_task task_id = (false, em) := by
        simp [ExecutorManager.cancel_task, hlk]
      refine ⟨?_, ?_, ?_, ?_⟩ <;>
        simp [hc, ExecutorManager.get_task_status, hlk, cancel_task,
          TaskStatus.isTerminal]
    | timedOut =>
      have hc : em.cancel_task task_id = (false, em) := by
        simp [ExecutorManager.cancel_task, hlk]
      refine ⟨?_, ?_, ?_, ?_⟩ <;>
        simp [hc, ExecutorManager.get_task_status, hlk, cancel_task,
          TaskStatus.isTerminal]
    | cancelled =>
      have hc : em.cancel_task task_id = (false, em) := by
        simp [ExecutorManager.cancel_task, hlk]
      refine ⟨?_, ?_, ?_, ?_⟩ <;>
        simp [hc, ExecutorManager.get_task_status, hlk, cancel_task,
          TaskStatus.isTerminal]

theorem cancel_spec_witness :
    (pendingManager.cancel_task 0).1 = true ∧
    (pendingManager.cancel_task 0).2.get_task_status 0 = some TaskStatus.cancelled :=
  ⟨rfl, (cancel_spec pendingManager 0).2.1 rfl⟩

/-- Claim C6: a valid submission is assigned a task id never issued before
(the freshly allocated counter value, distinct from every id in the
registry), and immediately afterwards both the manager and the status
endpoint report the task as PENDING; id allocation stays well-formed. -/
theorem submit_fresh_id_pending (em : ExecutorManager)
    (request : CodeExecutionRequest) (priority : Int)
    (hids : idsBounded em) (hrun : em.is_running = true) :
    ∃ em2,
      em.submit_task request priority = .ok (em.next_task_seq, em2) ∧
      (∀ p ∈ em.tasks, p.1 ≠ em.next_task_seq) ∧
      em.get_task_status em.next_task_seq = none ∧
      em2.get_task_status em.next_task_seq = some TaskStatus.pending ∧
      get_task_status (some em2) em.next_task_seq =
        .ok ⟨true, "获取任务状态成功", (em.next_task_seq, TaskStatus.pending)⟩ ∧
      idsBounded em2 := by
  have hne : ∀ p ∈ em.tasks, p.1 ≠ em.next_task_seq := fun p hp =>
    Nat.ne_of_lt (hids p hp)
  refine ⟨{ em with
      next_task_seq := em.next_task_seq + 1
      tasks := (em.next_task_seq, TaskStatus.pending) :: em.tasks
      queues := fun lvl =>
        if lvl = request.security_level then
          em.queues lvl ++ [⟨em.next_task_seq, priority, em.next_task_seq⟩]
        else em.queues lvl }, ?_, hne, ?_, ?_, ?_, ?_⟩
  · simp [ExecutorManager.submit_task, hrun]
  · exact lookup_eq_none_of_forall_ne em.tasks em.next_task_seq hne
  · simp [ExecutorManager.get_task_status, List.lookup]
  · have hst : (({ em with
        next_task_seq := em.next_task_seq + 1
        tasks := (em.next_task_seq, TaskStatus.pending) :: em.tasks
        queues := fun lvl =>
          if lvl = request.security_level then
            em.queues lvl ++ [⟨em.next_task_seq, priority, em.next_task_seq⟩]
          else em.queues lvl } : ExecutorManager).get_task_status em.next_task_seq)
        = some TaskStatus.pending := by
      simp [ExecutorManager.get_task_status, List.lookup]
    simp [get_task_status, hst]
  · intro p hp
    rcases List.mem_cons.mp hp with h | h
    · rw [h]
      exact Nat.lt_succ_self _
    · exact Nat.lt_succ_of_lt (hids p h)

theorem submit_fresh_id_pending_witness :
    idsBounded emptyManager ∧ emptyManager.is_running = true ∧
    ∃ em2,
      emptyManager.submit_task sampleRequest 0 = .ok (emptyManager.next_task_seq, em2) ∧
      (∀ p ∈ emptyManager.tasks, p.1 ≠ emptyManager.next_task_seq) ∧
      emptyManager.get_task_status emptyManager.next_task_seq = none ∧
      em2.get_task_status emptyManager.next_task_seq = some TaskStatus.pending ∧
      get_task_status (some em2) emptyManager.next_task_seq =
        .ok ⟨true, "获取任务状态成功", (emptyManager.next_task_seq, TaskStatus.pending)⟩ ∧
      idsBounded em2 := by
  have hids : idsBounded emptyManager := by
    intro p hp
    exact absurd hp (List.not_mem_nil p)
  exact ⟨hids, rfl, submit_fresh_id_pending emptyManager sampleRequest 0 hids rfl⟩

/-- Claim C7: after stop the manager is no longer running, every subsequent
manager-level submit fails with LifecycleError, stop is idempotent, and the
submit endpoint surfaces the failure as an error response (400 on blank
code, otherwise the 500 wrapping the LifecycleError) — never a silent
success. -/
theorem submit_after_stop_lifecycle (em : ExecutorManager)
    (request : CodeExecutionRequest) (priority : Int) :
    em.stop.is_running = false ∧
    em.stop.submit_task request priority = .error ManagerError.lifecycleError ∧
    em.stop.stop = em.stop ∧
    ∃ e, submit_code_execution (some em.stop) request priority = .error e ∧
      (e.status = 400 ∨ e.status = 500) := by
  refine ⟨rfl, ?_, rfl, ?_⟩
  · simp [ExecutorManager.submit_task, ExecutorManager.stop]
  · by_cases hb : pyStrip request.code = ""
    · exact ⟨⟨400, "代码内容不能为空"⟩, by simp [submit_code_execution, hb], Or.inl rfl⟩
    · refine ⟨⟨500, "提交任务失败: " ++ ManagerError.lifecycleError.message⟩, ?_, Or.inr rfl⟩
      simp [submit_code_execution, hb, ExecutorManager.submit_task, ExecutorManager.stop]

/-- Claim C9: the legacy combined endpoint answers 404 exactly when the task
id is unknown; for a task that exists but has no stored result it answers
200 with a placeholder ExecutionResult whose status is the current task
state and whose other fields are all None. -/
theorem legacy_placeholder_spec (em : ExecutorManager) (task_id : Nat) :
    (em.get_task_status task_id = none →
      get_task_status_legacy (some em) task_id = .error ⟨404, "任务不存在"⟩) ∧
    (∀ st, em.get_task_status task_id = some st →
      em.get_task_result task_id = none →
      get_task_status_legacy (some em) task_id =
        .ok ⟨true, "获取任务状态成功",
          { task_id := task_id, status := st, output := none, error := none
            return_code := none, execution_time := none, memory_usage := none
            cpu_usage := none, start_time := none, end_time := none }⟩) := by
  constructor
  · intro h
    simp [get_task_status_legacy, h]
  · intro st h hr
    simp [get_task_status_legacy, h, hr]

theorem legacy_placeholder_spec_witness :
    pendingManager.get_task_status 0 = some TaskStatus.pending ∧
    pendingManager.get_task_result 0 = none ∧
    get_task_status_legacy (some pendingManager) 0 =
      .ok ⟨true, "获取任务状态成功",
        { task_id := 0, status := TaskStatus.pending, output := none, error := none
          return_code := none, execution_time := none, memory_usage := none
          cpu_usage := none, start_time := none, end_time := none }⟩ :=
  ⟨rfl, rfl, (legacy_placeholder_spec pendingManager 0).2 TaskStatus.pending rfl rfl⟩

/-- A wire response is classified when it is either a 200 success or a
failure envelope carrying one of the failure codes the service raises. -/
def classifiedWire (w : WireResponse) : Prop :=
  (w.status_code = 200 ∧ w.success = true) ∨
  (w.success = false ∧
    (w.status_code = 400 ∨ w.status_code = 404 ∨
     w.status_code = 500 ∨ w.status_code = 503))

/-- Claim C8: every exposed operation, on every service state and input,
produces either a success payload (HTTP 200, success flag set) or a
classified failure (400/404/500/503 with the failure envelope); nothing
escapes unclassified — the per-endpoint handlers and the
global_exception_handler (also a structured 500) leave no other shape. -/
theorem every_response_classified (em? : Option ExecutorManager) (op : Operation) :
    classifiedWire (handle em? op) := by
  cases op with
  | rootOp => exact Or.inl ⟨rfl, rfl⟩
  | healthOp =>
    cases em? with
    | none => exact Or.inr ⟨rfl, by decide⟩
    | some em =>
      by_cases h : em.is_running = false
      · have hw : handle (some em) Operation.healthOp = ⟨503, false⟩ := by
          simp [handle, toWire, health_check, h]
        rw [hw]
        exact Or.inr ⟨rfl, by decide⟩
      · have hw : handle (some em) Operation.healthOp = ⟨200, true⟩ := by
          simp [handle, toWire, health_check, h]
        rw [hw]
        exact Or.inl ⟨rfl, rfl⟩
  | executeOp request priority =>
    cases em? with
    | none => exact Or.inr ⟨rfl, Or.inr (Or.inr (Or.inr rfl))⟩
    | some em =>
      by_cases hb : pyStrip request.code = ""
      · have hw : handle (some em) (Operation.executeOp request priority)
            = ⟨400, false⟩ := by
          simp [handle, submit_code_execution, hb]
        rw [hw]
        exact Or.inr ⟨rfl, by decide⟩
      · cases hs : em.submit_task request priority with
        | error e =>
          have hw : handle (some em) (Operation.executeOp request priority)
              = ⟨500, false⟩ := by
            simp [handle, submit_code_execution, hb, hs]
          rw [hw]
          exact Or.inr ⟨rfl, by decide⟩
        | ok pr =>
          obtain ⟨tid, em2⟩ := pr
          have hw : handle (some em) (Operation.executeOp request priority)
              = ⟨200, true⟩ := by
            simp [handle, submit_code_execution, hb, hs]
          rw [hw]
          exact Or.inl ⟨rfl, rfl⟩
  | taskStatusOp task_id =>
    cases em? with
    | none => exact Or.inr ⟨rfl, Or.inr (Or.inr (Or.inr rfl))⟩
    | some em =>
      cases h : em.get_task_status task_id with
      | none =>
        have hw : handle (some em) (Operation.taskStatusOp task_id)
            = ⟨404, false⟩ := by
          simp [handle, toWire, get_task_status, h]
        rw [hw]
        exact Or.inr ⟨rfl, by decide⟩
      | some st =>
        have hw : handle (some em) (Operation.taskStatusOp task_id)
            = ⟨200, true⟩ := by
          simp [handle, toWire, get_task_status, h]
        rw [hw]
        exact Or.inl ⟨rfl, rfl⟩
  | taskResultOp task_id =>
    cases em? with
    | none => exact Or.inr ⟨rfl, Or.inr (Or.inr (Or.inr rfl))⟩
    | some em =>
      cases h : em.get_task_result task_id with
      | none =>
        have hw : handle (some em) (Operation.taskResultOp task_id)
            = ⟨404, false⟩ := by
          simp [handle, toWire, get_task_result, h]
        rw [hw]
        exact Or.inr ⟨rfl, by decide⟩
      | some r =>
        have hw : handle (some em) (Operation.taskResultOp task_id)
            = ⟨200, true⟩ := by
          simp [handle, toWire, get_task_result, h]
        rw [hw]
        exact Or.inl ⟨rfl, rfl⟩
  | legacyStatusOp task_id =>
    cases em? with
    | none => exact Or.inr ⟨rfl, Or.inr (Or.inr (Or.inr rfl))⟩
    | some em =>
      cases h : em.get_task_status task_id with
      | none =>
        have hw : handle (some em) (Operation.legacyStatusOp task_id)
            = ⟨404, false⟩ := by
          simp [handle, toWire, get_task_status_legacy, h]
        rw [hw]
        exact Or.inr ⟨rfl, by decide⟩
      | some st =>
        have hw : handle (some em) (Operation.legacyStatusOp task_id)
            = ⟨200, true⟩ := by
          simp [handle, toWire, get_task_status_legacy, h]
        rw [hw]
        exact Or.inl ⟨rfl, rfl⟩
  | cancelOp task_id =>
    cases em? with
    | none => exact Or.inr ⟨rfl, Or.inr (Or.inr (Or.inr rfl))⟩
    | some em =>
      cases hc : em.cancel_task task_id with
      | mk ok em2 =>
        cases ok with
        | false =>
          have hw : handle (some em) (Operation.cancelOp task_id)
              = ⟨400, false⟩ := by
            simp [handle, cancel_task, hc]
          rw [hw]
          exact Or.inr ⟨rfl, by decide⟩
        | true =>
          have hw : handle (some em) (Operation.cancelOp task_id)
              = ⟨200, true⟩ := by
            simp [handle, cancel_task, hc]
          rw [hw]
          exact Or.inl ⟨rfl, rfl⟩
  | queueInfoOp =>
    cases em? with
    | none => exact Or.inr ⟨rfl, by decide⟩
    | some em => exact Or.inl ⟨rfl, rfl⟩
  | executorStatusOp =>
    cases em? with
    | none => exact Or.inr ⟨rfl, by decide⟩
    | some em => exact Or.inl ⟨rfl, rfl⟩
  | systemStatusOp =>
    cases em? with
    | none => exact Or.inr ⟨rfl, by decide⟩
    | some em => exact Or.inl ⟨rfl, rfl⟩

/-- Claim C10 counterexample: with the manager uninitialised, the
/queues/info endpoint does not return 503 — its own 503 is caught by its
blanket exception clause and re-raised as a 500. -/
theorem queue_info_none_returns_500 :
    get_queue_info (none : Option ExecutorManager) =
      .error ⟨500, "获取队列信息失败: 503: 执行器管理器未初始化"⟩ ∧
    errorStatus (get_queue_info (none : Option ExecutorManager)) = some 500 ∧
    errorStatus (get_queue_info (none : Option ExecutorManager)) ≠ some 503 := by
  refine ⟨rfl, rfl, ?_⟩
  intro h
  rw [show errorStatus (get_queue_info (none : Option ExecutorManager)) = some 500
    from rfl] at h
  exact absurd (Option.some.inj h) (by decide)

/-- Claim C10 amended: with the manager uninitialised, the six endpoints
that re-raise HTTPException (/execute, task status, task result, legacy
status, cancel, /health) return 503, while /queues/info, /executors/status
and /system/status fail with a 500 that wraps their internal 503; none of
them reaches a manager operation (there is no manager to consult). The
health endpoint also returns 503 whenever the manager exists but is not
running. -/
theorem none_manager_amended (request : CodeExecutionRequest) (priority : Int)
    (task_id : Nat) :
    submit_code_execution none request priority =
      .error ⟨503, "执行器管理器未初始化"⟩ ∧
    get_task_status none task_id = .error ⟨503, "执行器管理器未初始化"⟩ ∧
    get_task_result none task_id = .error ⟨503, "执行器管理器未初始化"⟩ ∧
    get_task_status_legacy none task_id = .error ⟨503, "执行器管理器未初始化"⟩ ∧
    cancel_task none task_id = .error ⟨503, "执行器管理器未初始化"⟩ ∧
    health_check none = .error ⟨503, "服务不可用"⟩ ∧
    get_queue_info none = .error ⟨500, "获取队列信息失败: 503: 执行器管理器未初始化"⟩ ∧
    get_executor_status none =
      .error ⟨500, "获取执行器状态失败: 503: 执行器管理器未初始化"⟩ ∧
    get_system_status none =
      .error ⟨500, "获取系统状态失败: 503: 执行器管理器未初始化"⟩ ∧
    (∀ em : ExecutorManager, em.is_running = false →
      health_check (some em) = .error ⟨503, "服务不可用"⟩) := by
  refine ⟨rfl, rfl, rfl, rfl, rfl, rfl, rfl, rfl, rfl, ?_⟩
  intro em h
  simp [health_check, h]

theorem none_manager_amended_witness :
    emptyManager.stop.is_running = false ∧
    health_check (some emptyManager.stop) = .error ⟨503, "服务不可用"⟩ :=
  ⟨rfl, (none_manager_amended sampleRequest 0 0).2.2.2.2.2.2.2.2.2
    emptyManager.stop rfl⟩
